import Mathlib

/-!
Verification of the route-filtering policy engine of the jira-mcp gateway.

The construction pipeline is embedded from `src/jira_mcp/server.py`
(`JiraMCPServer._load_route_config`, `_get_safe_endpoints`,
`_get_route_filters`).  Pattern matching and rule-list evaluation are
performed by the host framework (FastMCP), whose code is not part of this
repository; those parts are modelled from the spec (anchored full-match
regular expressions, first-match rule scan).
-/

namespace JiraMCP

/-! ## Regular expressions

Modelled from the spec: a route pattern is a regular expression matched
against the full request path (anchored, matches the entire path).  We use
Brzozowski derivatives with simplifying smart constructors so that concrete
matches compute. -/

inductive Regex where
  | emp : Regex
  | eps : Regex
  | anyc : Regex
  | chr : Char → Regex
  | cls : Bool → List Char → Regex
  | cat : Regex → Regex → Regex
  | alt : Regex → Regex → Regex
  | star : Regex → Regex
deriving DecidableEq, Repr

def Regex.nullable : Regex → Bool
  | .emp => false
  | .eps => true
  | .anyc => false
  | .chr _ => false
  | .cls _ _ => false
  | .cat a b => a.nullable && b.nullable
  | .alt a b => a.nullable || b.nullable
  | .star _ => true

def Regex.catS : Regex → Regex → Regex
  | .emp, _ => .emp
  | _, .emp => .emp
  | .eps, r => r
  | r, .eps => r
  | a, b => .cat a b

def Regex.altS : Regex → Regex → Regex
  | .emp, r => r
  | r, .emp => r
  | a, b => .alt a b

/-- Character-class membership: `cls false cs` matches characters in `cs`,
`cls true cs` (written `[^...]`) matches characters not in `cs`. -/
def Regex.clsMatch (neg : Bool) (cs : List Char) (a : Char) : Bool :=
  if neg then !(cs.contains a) else cs.contains a

def Regex.deriv : Regex → Char → Regex
  | .emp, _ => .emp
  | .eps, _ => .emp
  | .anyc, _ => .eps
  | .chr c, a => if a = c then .eps else .emp
  | .cls neg cs, a => if Regex.clsMatch neg cs a then .eps else .emp
  | .cat a b, c =>
      if a.nullable then Regex.altS (Regex.catS (a.deriv c) b) (b.deriv c)
      else Regex.catS (a.deriv c) b
  | .alt a b, c => Regex.altS (a.deriv c) (b.deriv c)
  | .star r, c => Regex.catS (r.deriv c) (.star r)

/-- Regex matching over a list of characters: fold the derivative and test
nullability. -/
def Regex.rmatch (r : Regex) (s : List Char) : Bool :=
  (s.foldl Regex.deriv r).nullable

/-! ## Pattern parsing

A small parser for the regex dialect actually used by the route
configurations: literal characters, `.`, postfix `*`, `+` and `?`,
character classes `[...]` and `[^...]`, and escapes `\c`.  Leading `^` and
trailing `$` anchors are stripped, since matching is anchored full-match
anyway.  Unsupported constructs make the parse fail. -/

def parseCls : List Char → Option (List Char × List Char)
  | [] => none
  | ']' :: rest => some ([], rest)
  | '\\' :: c :: rest =>
      match parseCls rest with
      | some (cs, r) => some (c :: cs, r)
      | none => none
  | c :: rest =>
      match parseCls rest with
      | some (cs, r) => some (c :: cs, r)
      | none => none

/-- Apply a postfix repetition operator, if present. -/
def applyPost (r : Regex) : List Char → Regex × List Char
  | '*' :: rest => (.star r, rest)
  | '+' :: rest => (.cat r (.star r), rest)
  | '?' :: rest => (.alt r .eps, rest)
  | rest => (r, rest)

def forbiddenLead (c : Char) : Bool :=
  c = '*' || c = '+' || c = '?' || c = '(' || c = ')' || c = '|' ||
  c = '^' || c = '$' || c = '\\'

def parseSeq : Nat → List Char → Option Regex
  | _, [] => some .eps
  | 0, _ => none
  | fuel + 1, s =>
      let atom : Option (Regex × List Char) :=
        match s with
        | '.' :: rest => some (.anyc, rest)
        | '[' :: '^' :: rest =>
            match parseCls rest with
            | some (cs, r) => some (.cls true cs, r)
            | none => none
        | '[' :: rest =>
            match parseCls rest with
            | some (cs, r) => some (.cls false cs, r)
            | none => none
        | '\\' :: c :: rest => some (.chr c, rest)
        | c :: rest => if forbiddenLead c then none else some (.chr c, rest)
        | [] => none
      match atom with
      | none => none
      | some (a, rest) =>
          let (r, rest') := applyPost a rest
          match parseSeq fuel rest' with
          | some t => some (.cat r t)
          | none => none

/-- Strip a leading `^` anchor. -/
def stripCaret : List Char → List Char
  | '^' :: t => t
  | t => t

/-- Strip a trailing `$` anchor. -/
def stripDollar (s : List Char) : List Char :=
  if s.getLast? = some '$' then s.dropLast else s

def parsePattern (p : String) : Option Regex :=
  let cs := stripDollar (stripCaret p.data)
  parseSeq cs.length cs

/-- Modelled from the spec: a path fully matches a route pattern (anchored,
matches the entire path).  An unparseable pattern matches nothing. -/
def fullMatch (pat path : String) : Bool :=
  match parsePattern pat with
  | some r => r.rmatch path.data
  | none => false

/-! ## Substring testing

Used to state properties of diagnostic messages. -/

/-- `listSubstr n h` is true when `n` occurs contiguously inside `h`. -/
def listSubstr (n h : List Char) : Bool :=
  h.tails.any (fun t => n.isPrefixOf t)

/-- `containsSub hay needle`: `needle` occurs as a substring of `hay`. -/
def containsSub (hay needle : String) : Bool :=
  listSubstr needle.data hay.data

/-! ## Data model

Embedded from `src/jira_mcp/server.py` and `src/jira_mcp/settings.py`.
`RouteMap` and `MCPType` come from the host framework's interface as the
source uses them; an empty `methods` list stands for the framework default
"all methods", and the framework default pattern is `.*` (the spec's
destructive-veto rule has pattern `.*`, any path). -/

inductive MCPType where
  | TOOL : MCPType
  | EXCLUDE : MCPType
deriving DecidableEq, Repr

structure RouteMap where
  methods : List String
  pattern : String
  mcp_type : MCPType
deriving DecidableEq, Repr

/-- The decision the policy engine produces for an operation. -/
inductive Decision where
  | EXPOSE : Decision
  | EXCLUDE : Decision
deriving DecidableEq, Repr

/-- `MCPType.TOOL` means the operation becomes a callable tool (EXPOSE). -/
def decisionOf : MCPType → Decision
  | .TOOL => .EXPOSE
  | .EXCLUDE => .EXCLUDE

inductive LogLevel where
  | info : LogLevel
  | warning : LogLevel
  | error : LogLevel
deriving DecidableEq, Repr

structure LogMsg where
  level : LogLevel
  msg : String
deriving DecidableEq, Repr

/-- `MCPSettings.route_config_path` / `route_config_name` from
`src/jira_mcp/settings.py` (plain strings; the Python code treats the empty
string as unset via truthiness checks). -/
structure MCPSettings where
  route_config_path : String
  route_config_name : String
deriving DecidableEq, Repr

/-- One named configuration inside the catalog; `routes = none` models an
absent `routes` key (the source reads it with `.get("routes", [])`). -/
structure NamedConfig where
  routes : Option (List String)
deriving DecidableEq, Repr

/-- The parsed YAML configuration data, as far as the source inspects it:
an optional `configurations` catalog (an ordered dict, modelled as an
association list) and an optional top-level `routes` list. -/
structure ConfigData where
  configurations : Option (List (String × NamedConfig))
  routes : Option (List String)
deriving DecidableEq, Repr

/-- Outcome of reading and YAML-parsing the configuration file: either the
parsed data, or any read/parse failure (missing file, malformed YAML,
non-mapping top level), which the source's `except` clause absorbs. -/
inductive SourceRead where
  | ok : ConfigData → SourceRead
  | failed : SourceRead
deriving DecidableEq, Repr

/-! ## Construction pipeline (from `src/jira_mcp/server.py`) -/

/-- Dictionary lookup `config_data["configurations"][name]`. -/
def lookupConfig (cfgs : List (String × NamedConfig)) (name : String) :
    Option NamedConfig :=
  (cfgs.find? (fun p => p.1 == name)).map (fun p => p.2)

/-- Python `repr` of a list of strings, as f-string interpolation renders
`available` in the source's log message. -/
def pyQuoted : List String → String
  | [] => ""
  | [x] => "'" ++ x ++ "'"
  | x :: y :: xs => "'" ++ x ++ "', " ++ pyQuoted (y :: xs)

def pyListRepr (xs : List String) : String :=
  "[" ++ pyQuoted xs ++ "]"

/-- `JiraMCPServer._load_route_config` (server.py lines 77-118): returns the
route list together with the log messages it emits.  Errors here are only
logged; the function returns `[]` on every failure path. -/
def loadRouteConfig (mcp : MCPSettings) (src : SourceRead) :
    List String × List LogMsg :=
  if mcp.route_config_path = "" then ([], [])
  else
    match src with
    | .failed =>
        ([], [⟨.error, "Failed to load route config from " ++
               mcp.route_config_path⟩])
    | .ok d =>
        if mcp.route_config_name ≠ "" then
          match d.configurations with
          | some cfgs =>
              match lookupConfig cfgs mcp.route_config_name with
              | some nc =>
                  let routes := nc.routes.getD []
                  (routes, [⟨.info, "Loaded " ++ toString routes.length ++
                    " routes from configuration '" ++
                    mcp.route_config_name ++ "' in " ++
                    mcp.route_config_path⟩])
              | none =>
                  let available := cfgs.map (fun p => p.1)
                  ([], [⟨.error, "Configuration '" ++
                    mcp.route_config_name ++ "' not found. Available: " ++
                    pyListRepr available⟩])
          | none =>
              ([], [⟨.error, "No 'configurations' section found in " ++
                mcp.route_config_path⟩])
        else
          let routes := d.routes.getD []
          (routes, [⟨.info, "Loaded " ++ toString routes.length ++
            " routes from " ++ mcp.route_config_path⟩])

/-- `JiraMCPServer._get_safe_endpoints` (server.py lines 120-137): raises
`ValueError` (modelled as `Except.error`) when path or name is unset or when
no routes could be loaded. -/
def getSafeEndpoints (mcp : MCPSettings) (src : SourceRead) :
    Except String (List String) × List LogMsg :=
  if mcp.route_config_path = "" ∨ mcp.route_config_name = "" then
    (.error ("Route configuration is required. Set MCP_ROUTE_CONFIG_PATH " ++
      "and MCP_ROUTE_CONFIG_NAME environment variables."), [])
  else
    let fr := loadRouteConfig mcp src
    if fr.1.isEmpty then
      (.error ("Failed to load configuration '" ++ mcp.route_config_name ++
        "' from " ++ mcp.route_config_path), fr.2)
    else
      (.ok fr.1, fr.2 ++ [⟨.info, "Using configuration '" ++
        mcp.route_config_name ++ "' with " ++ toString fr.1.length ++
        " routes"⟩])

/-- The "all operations" sentinel pattern checked at server.py line 153
(the source lists the same string twice, once as a raw literal). -/
def allOpsSentinel : String := "^/rest/api/.*"

/-- The destructive-method veto rule (server.py lines 161-163; the pattern
is the framework default `.*`). -/
def vetoRule : RouteMap :=
  ⟨["POST", "PUT", "PATCH", "DELETE"], ".*", .EXCLUDE⟩

/-- One allow-list rule (server.py lines 168-172). -/
def allowRule (pattern : String) : RouteMap :=
  ⟨["GET"], pattern, .TOOL⟩

/-- The trailing default-deny rule (server.py line 177; empty `methods`
is the framework default "all methods"). -/
def denyRule : RouteMap :=
  ⟨[], ".*", .EXCLUDE⟩

/-- `JiraMCPServer._get_route_filters` (server.py lines 139-179):
`Except.ok none` is the "no filtering" bypass, `Except.ok (some filters)`
the constructed rule list. -/
def getRouteFilters (mcp : MCPSettings) (src : SourceRead) :
    Except String (Option (List RouteMap)) × List LogMsg :=
  match (getSafeEndpoints mcp src).1 with
  | .error e => (.error e, (getSafeEndpoints mcp src).2)
  | .ok safe_endpoints =>
      if safe_endpoints.any
          (fun pattern => [allOpsSentinel, allOpsSentinel].contains pattern) then
        (.ok none, (getSafeEndpoints mcp src).2 ++ [⟨.warning,
          "Configuration includes all API endpoints - NO FILTERING " ++
          "applied! Destructive operations are possible."⟩])
      else
        (.ok (some (vetoRule ::
          (safe_endpoints.map allowRule ++ [denyRule]))),
         (getSafeEndpoints mcp src).2)

/-! ## Evaluation

Modelled from the spec: the host framework scans rules in list order and
the first rule whose method set (empty meaning "all methods") admits the
operation's method and whose pattern fully matches the operation's path
determines the decision; an `Unfiltered` (`none`) policy exposes
everything. -/

def ruleMatches (r : RouteMap) (method path : String) : Bool :=
  (r.methods.isEmpty || r.methods.contains method) && fullMatch r.pattern path

def evalRules : List RouteMap → String → String → Option Decision
  | [], _, _ => none
  | r :: rs, m, p =>
      if ruleMatches r m p then some (decisionOf r.mcp_type)
      else evalRules rs m p

/-- Modelled from the spec: `evaluate(policy, method, path)`; `none` is the
distinguished unfiltered policy. -/
def evaluate (policy : Option (List RouteMap)) (method path : String) :
    Option Decision :=
  match policy with
  | none => some .EXPOSE
  | some rs => evalRules rs method path

/-! ## Helper lemmas -/

theorem deriv_star_anyc (c : Char) :
    Regex.deriv (.star .anyc) c = .star .anyc := rfl

theorem rmatch_star_anyc (s : List Char) :
    Regex.rmatch (.star .anyc) s = true := by
  induction s with
  | nil => rfl
  | cons c t ih =>
      simpa [Regex.rmatch, List.foldl_cons, deriv_star_anyc] using ih

theorem parsePattern_dotstar :
    parsePattern ".*" = some (.cat (.star .anyc) .eps) := rfl

theorem deriv_dotstar (c : Char) :
    Regex.deriv (.cat (.star .anyc) .eps) c = .star .anyc := rfl

/-- The pattern `.*` fully matches every path. -/
theorem fullMatch_dotstar (path : String) : fullMatch ".*" path = true := by
  unfold fullMatch
  rw [parsePattern_dotstar]
  cases hd : path.data with
  | nil => rfl
  | cons c t =>
      simpa [Regex.rmatch, List.foldl_cons, deriv_dotstar] using
        rmatch_star_anyc t

/-- The destructive-method veto rule matches every destructive operation. -/
theorem ruleMatches_veto (m : String)
    (hm : m = "POST" ∨ m = "PUT" ∨ m = "PATCH" ∨ m = "DELETE")
    (p : String) : ruleMatches vetoRule m p = true := by
  rcases hm with rfl | rfl | rfl | rfl <;>
    simp [ruleMatches, vetoRule, fullMatch_dotstar]

/-- The trailing default-deny rule matches every operation. -/
theorem ruleMatches_deny (m p : String) : ruleMatches denyRule m p = true := by
  simp [ruleMatches, denyRule, fullMatch_dotstar]

/-- A rule list ending in the default-deny rule always yields a decision. -/
theorem evalRules_append_deny (rs : List RouteMap) (m p : String) :
    (evalRules (rs ++ [denyRule]) m p).isSome = true := by
  induction rs with
  | nil => simp [evalRules, ruleMatches_deny]
  | cons r t ih =>
      by_cases h : ruleMatches r m p = true
      · simp [evalRules, h]
      · simp only [List.cons_append, evalRules, h, if_false]
        simpa using ih

/-- The sentinel check at server.py line 153 is string equality with
`^/rest/api/.*`. -/
theorem sentinelCheck_iff (es : List String) :
    (es.any (fun pattern => [allOpsSentinel, allOpsSentinel].contains pattern))
      = true ↔ allOpsSentinel ∈ es := by
  constructor
  · intro h
    obtain ⟨x, hx, hc⟩ := List.any_eq_true.mp h
    have hmem : x ∈ [allOpsSentinel, allOpsSentinel] := by simpa using hc
    rcases List.mem_pair.mp hmem with h1 | h1 <;> exact h1 ▸ hx
  · intro h
    exact List.any_eq_true.mpr ⟨allOpsSentinel, h, by simp⟩

theorem getRouteFilters_error (mcp : MCPSettings) (src : SourceRead)
    (e : String) (h : (getSafeEndpoints mcp src).1 = .error e) :
    (getRouteFilters mcp src).1 = .error e := by
  unfold getRouteFilters
  rw [h]

theorem getRouteFilters_bypass (mcp : MCPSettings) (src : SourceRead)
    (es : List String) (h : (getSafeEndpoints mcp src).1 = .ok es)
    (hs : allOpsSentinel ∈ es) :
    (getRouteFilters mcp src).1 = .ok none := by
  unfold getRouteFilters
  rw [h]
  simp [hs]

theorem getRouteFilters_rules (mcp : MCPSettings) (src : SourceRead)
    (es : List String) (h : (getSafeEndpoints mcp src).1 = .ok es)
    (hs : allOpsSentinel ∉ es) :
    (getRouteFilters mcp src).1 =
      .ok (some (vetoRule :: (es.map allowRule ++ [denyRule]))) := by
  unfold getRouteFilters
  rw [h]
  simp [hs]

/-- Inversion: a successfully constructed (non-bypass) rule list comes from
a successfully loaded allow-list without the sentinel, and has the standard
shape. -/
theorem getRouteFilters_ok_some (mcp : MCPSettings) (src : SourceRead)
    (rules : List RouteMap)
    (h : (getRouteFilters mcp src).1 = .ok (some rules)) :
    ∃ es, (getSafeEndpoints mcp src).1 = .ok es ∧ allOpsSentinel ∉ es ∧
      rules = vetoRule :: (es.map allowRule ++ [denyRule]) := by
  cases hse : (getSafeEndpoints mcp src).1 with
  | error e =>
      rw [getRouteFilters_error mcp src e hse] at h
      exact absurd h (by simp)
  | ok es =>
      by_cases hs : allOpsSentinel ∈ es
      · rw [getRouteFilters_bypass mcp src es hse hs] at h
        exact absurd h (by simp)
      · rw [getRouteFilters_rules mcp src es hse hs] at h
        refine ⟨es, rfl, hs, ?_⟩
        injection h with h1
        injection h1 with h2
        exact h2.symm

/-! ## String/substring helper lemmas -/

theorem data_append (s t : String) : (s ++ t).data = s.data ++ t.data := rfl

theorem isPrefixOf_append_self (a b : List Char) :
    a.isPrefixOf (a ++ b) = true := by
  induction a with
  | nil => simp [List.isPrefixOf]
  | cons c t ih => simp [List.isPrefixOf, ih]

theorem listSubstr_parts (a n b : List Char) :
    listSubstr n (a ++ (n ++ b)) = true := by
  apply List.any_eq_true.mpr
  refine ⟨n ++ b, ?_, isPrefixOf_append_self n b⟩
  exact (List.mem_tails _ _).mpr (List.suffix_append a (n ++ b))

theorem containsSub_of_data (hay mid : String) (a b : List Char)
    (h : hay.data = a ++ (mid.data ++ b)) : containsSub hay mid = true := by
  unfold containsSub
  rw [h]
  exact listSubstr_parts a mid.data b

theorem string_append_assoc (a b c : String) : (a ++ b) ++ c = a ++ (b ++ c) := by
  apply String.ext
  simp [data_append, List.append_assoc]

/-- Every member of a string list occurs inside its Python list rendering. -/
theorem pyQuoted_split (xs : List String) (n : String) (hn : n ∈ xs) :
    ∃ a b, pyQuoted xs = a ++ (n ++ b) := by
  induction xs with
  | nil => cases hn
  | cons x t ih =>
      rcases List.mem_cons.mp hn with rfl | hn
      · cases t with
        | nil =>
            exact ⟨"'", "'", by simp [pyQuoted, string_append_assoc]⟩
        | cons y ys =>
            refine ⟨"'", "', " ++ pyQuoted (y :: ys), ?_⟩
            show "'" ++ n ++ "', " ++ pyQuoted (y :: ys) = _
            rw [string_append_assoc, string_append_assoc]
      · have ht : t ≠ [] := by
          intro he
          rw [he] at hn
          cases hn
        obtain ⟨a, b, hab⟩ := ih hn
        cases t with
        | nil => exact absurd rfl ht
        | cons y ys =>
            refine ⟨"'" ++ x ++ "', " ++ a, b, ?_⟩
            show "'" ++ x ++ "', " ++ pyQuoted (y :: ys) = _
            rw [hab]
            apply String.ext
            simp [data_append, List.append_assoc]

/-! ## Example configurations (used for concrete instantiation) -/

/-- A settings value naming the `read-only-plus` configuration. -/
def exMcp : MCPSettings := ⟨"route-configs.yaml", "read-only-plus"⟩

/-- A catalog source holding the `read-only-plus` configuration. -/
def exSrc : SourceRead := .ok ⟨some [("read-only-plus",
  ⟨some ["^/rest/api/3/issue/[^/]+$", "^/rest/api/3/search$"]⟩)], none⟩

/-- The rule list constructed from `exMcp`/`exSrc`. -/
def exRules : List RouteMap :=
  vetoRule :: (["^/rest/api/3/issue/[^/]+$",
    "^/rest/api/3/search$"].map allowRule ++ [denyRule])

/-! ## Claims -/

/-- C1: for every configuration for which rule construction succeeds and
does not take the no-filtering bypass, and for every path string,
evaluating the constructed rule list on POST, PUT, PATCH or DELETE yields
EXCLUDE: the destructive-method veto rule is always first and no
configuration-supplied pattern can override it. -/
theorem destructive_methods_always_excluded (mcp : MCPSettings)
    (src : SourceRead) (rules : List RouteMap)
    (h : (getRouteFilters mcp src).1 = .ok (some rules))
    (m : String) (hm : m = "POST" ∨ m = "PUT" ∨ m = "PATCH" ∨ m = "DELETE")
    (path : String) :
    evaluate (some rules) m path = some .EXCLUDE := by
  obtain ⟨es, _, _, hr⟩ := getRouteFilters_ok_some mcp src rules h
  subst hr
  have hv := ruleMatches_veto m hm path
  simp only [evaluate, evalRules, hv, if_true]
  rfl

/-- Witness for C1: the veto on a concrete configuration and path. -/
theorem destructive_methods_always_excluded_witness :
    evaluate (some exRules) "POST" "/rest/api/3/issue/ABC-1" =
      some .EXCLUDE :=
  destructive_methods_always_excluded exMcp exSrc exRules (by rfl) "POST"
    (Or.inl rfl) "/rest/api/3/issue/ABC-1"

/-- C2: if the resolved allow-list contains the all-operations sentinel,
rule construction emits no rules and returns the distinguished no-filtering
value after emitting a warning-level log signal, and under that value every
(method, path) pair evaluates to EXPOSE. -/
theorem unfiltered_bypass (mcp : MCPSettings) (src : SourceRead)
    (es : List String) (h : (getSafeEndpoints mcp src).1 = .ok es)
    (hs : allOpsSentinel ∈ es) :
    (getRouteFilters mcp src).1 = .ok none ∧
    (∃ l ∈ (getRouteFilters mcp src).2, l.level = .warning) ∧
    (∀ m path : String, evaluate none m path = some .EXPOSE) := by
  refine ⟨getRouteFilters_bypass mcp src es h hs, ?_, fun m path => rfl⟩
  unfold getRouteFilters
  rw [h]
  simp only [hs, if_pos, List.any_eq_true]
  refine ⟨⟨.warning, "Configuration includes all API endpoints - " ++
    "NO FILTERING applied! Destructive operations are possible."⟩, ?_, rfl⟩
  simp [hs]

/-- Witness for C2: a configuration whose routes contain the sentinel. -/
theorem unfiltered_bypass_witness :
    (getRouteFilters ⟨"route-configs.yaml", "unsafe"⟩
      (.ok ⟨some [("unsafe", ⟨some ["^/rest/api/.*"]⟩)], none⟩)).1 =
        .ok none ∧
    (∃ l ∈ (getRouteFilters ⟨"route-configs.yaml", "unsafe"⟩
      (.ok ⟨some [("unsafe", ⟨some ["^/rest/api/.*"]⟩)], none⟩)).2,
        l.level = .warning) ∧
    (∀ m path : String, evaluate none m path = some .EXPOSE) :=
  unfiltered_bypass ⟨"route-configs.yaml", "unsafe"⟩
    (.ok ⟨some [("unsafe", ⟨some ["^/rest/api/.*"]⟩)], none⟩)
    ["^/rest/api/.*"] (by rfl) (by decide)

/-- C3: for every successfully loaded allow-list without the sentinel, the
constructed rule list is exactly: the destructive veto first, then one
GET/EXPOSE rule per configured pattern in original order, then the trailing
default-deny rule. -/
theorem rule_list_exact_structure (mcp : MCPSettings) (src : SourceRead)
    (es : List String) (h : (getSafeEndpoints mcp src).1 = .ok es)
    (hs : allOpsSentinel ∉ es) :
    (getRouteFilters mcp src).1 = .ok (some
      (⟨["POST", "PUT", "PATCH", "DELETE"], ".*", .EXCLUDE⟩ ::
        (es.map (fun p => ⟨["GET"], p, .TOOL⟩) ++
          [⟨[], ".*", .EXCLUDE⟩]))) :=
  getRouteFilters_rules mcp src es h hs

/-- Witness for C3: the exact rule list for a concrete configuration. -/
theorem rule_list_exact_structure_witness :
    (getRouteFilters exMcp exSrc).1 = .ok (some
      (⟨["POST", "PUT", "PATCH", "DELETE"], ".*", .EXCLUDE⟩ ::
        (["^/rest/api/3/issue/[^/]+$", "^/rest/api/3/search$"].map
          (fun p => ⟨["GET"], p, .TOOL⟩) ++ [⟨[], ".*", .EXCLUDE⟩]))) :=
  rule_list_exact_structure exMcp exSrc
    ["^/rest/api/3/issue/[^/]+$", "^/rest/api/3/search$"] (by rfl) (by decide)

/-- C4: every well-formed (non-bypass) constructed rule list yields a
decision for every (method, path) pair — there is no unmatched outcome —
because the trailing rule has pattern `.*` and no method restriction. -/
theorem total_coverage (mcp : MCPSettings) (src : SourceRead)
    (rules : List RouteMap)
    (h : (getRouteFilters mcp src).1 = .ok (some rules))
    (m path : String) :
    (evaluate (some rules) m path).isSome = true := by
  obtain ⟨es, _, _, hr⟩ := getRouteFilters_ok_some mcp src rules h
  subst hr
  have hd := evalRules_append_deny (vetoRule :: es.map allowRule) m path
  simpa [evaluate, List.cons_append] using hd

/-- Witness for C4: a decision exists for a concrete unlisted operation. -/
theorem total_coverage_witness :
    (evaluate (some exRules) "OPTIONS" "/no/such/path").isSome = true :=
  total_coverage exMcp exSrc exRules (by rfl) "OPTIONS" "/no/such/path"

/-- Settings for the single-pattern precision example. -/
def precisionMcp : MCPSettings := ⟨"route-configs.yaml", "issue-only"⟩

/-- Catalog with one allow pattern for issue detail paths. -/
def precisionSrc : SourceRead := .ok ⟨some [("issue-only",
  ⟨some ["^/rest/api/3/issue/[^/]+$"]⟩)], none⟩

/-- The rule list constructed from `precisionMcp`/`precisionSrc`. -/
def precisionRules : List RouteMap :=
  vetoRule :: (["^/rest/api/3/issue/[^/]+$"].map allowRule ++ [denyRule])

/-- C5: evaluation scans the rule list in order and returns the decision of
the first rule whose method set is empty or contains the method and whose
pattern fully matches the path; with allow pattern
`^/rest/api/3/issue/[^/]+$` configured, GET `/rest/api/3/issue/ABC-123`
evaluates to EXPOSE while GET `/rest/api/3/issue/ABC-123/comment` and POST
`/rest/api/3/issue/ABC-123` evaluate to EXCLUDE. -/
theorem first_match_allowlist_precision :
    (∀ (r : RouteMap) (rs : List RouteMap) (m p : String),
      evalRules (r :: rs) m p =
        if ruleMatches r m p then some (decisionOf r.mcp_type)
        else evalRules rs m p) ∧
    (getRouteFilters precisionMcp precisionSrc).1 =
      .ok (some precisionRules) ∧
    evaluate (some precisionRules) "GET" "/rest/api/3/issue/ABC-123" =
      some .EXPOSE ∧
    evaluate (some precisionRules) "GET"
      "/rest/api/3/issue/ABC-123/comment" = some .EXCLUDE ∧
    evaluate (some precisionRules) "POST" "/rest/api/3/issue/ABC-123" =
      some .EXCLUDE :=
  ⟨fun _ _ _ _ => rfl, rfl, rfl, rfl, rfl⟩

/-- C9: the all-operations bypass is triggered exactly when some allow-list
entry is string-equal to `^/rest/api/.*`; any other allow-list — even one
containing a pattern such as `.*` that matches every path — produces the
normal filtered rule list, under which destructive methods stay excluded
for every path. -/
theorem bypass_only_on_exact_sentinel (mcp : MCPSettings) (src : SourceRead)
    (es : List String) (h : (getSafeEndpoints mcp src).1 = .ok es) :
    ((getRouteFilters mcp src).1 = .ok none ↔ allOpsSentinel ∈ es) ∧
    (allOpsSentinel ∉ es →
      (getRouteFilters mcp src).1 =
        .ok (some (vetoRule :: (es.map allowRule ++ [denyRule]))) ∧
      ∀ m, (m = "POST" ∨ m = "PUT" ∨ m = "PATCH" ∨ m = "DELETE") →
        ∀ path, evalRules (vetoRule :: (es.map allowRule ++ [denyRule]))
          m path = some .EXCLUDE) := by
  constructor
  · constructor
    · intro hb
      by_contra hs
      rw [getRouteFilters_rules mcp src es h hs] at hb
      simp at hb
    · exact getRouteFilters_bypass mcp src es h
  · intro hs
    refine ⟨getRouteFilters_rules mcp src es h hs, ?_⟩
    intro m hm path
    have hv := ruleMatches_veto m hm path
    simp only [evalRules, hv, if_true]
    rfl

/-- Witness for C9: an allow-list containing the universal pattern `.*`
(not string-equal to the sentinel) does not take the bypass, and DELETE
stays excluded. -/
theorem bypass_only_on_exact_sentinel_witness :
    ((getRouteFilters ⟨"cfg.yaml", "dotstar"⟩
        (.ok ⟨some [("dotstar", ⟨some [".*"]⟩)], none⟩)).1 = .ok none ↔
      allOpsSentinel ∈ [".*"]) ∧
    evalRules (vetoRule :: ([".*"].map allowRule ++ [denyRule])) "DELETE"
      "/rest/api/3/issue/ABC-1" = some .EXCLUDE := by
  have h := bypass_only_on_exact_sentinel ⟨"cfg.yaml", "dotstar"⟩
    (.ok ⟨some [("dotstar", ⟨some [".*"]⟩)], none⟩) [".*"] (by rfl)
  exact ⟨h.1, (h.2 (by decide)).2 "DELETE" (Or.inr (Or.inr (Or.inr rfl)))
    "/rest/api/3/issue/ABC-1"⟩

/-- C10: a named configuration present in the catalog but with an empty
(or absent) routes list makes construction fail with an error; no policy
consisting only of the veto and default-deny rules is produced. -/
theorem empty_allowlist_construction_fails (mcp : MCPSettings)
    (src : SourceRead) (d : ConfigData)
    (cfgs : List (String × NamedConfig)) (nc : NamedConfig)
    (hpath : mcp.route_config_path ≠ "")
    (hname : mcp.route_config_name ≠ "")
    (hsrc : src = .ok d) (hcfgs : d.configurations = some cfgs)
    (hfound : lookupConfig cfgs mcp.route_config_name = some nc)
    (hempty : nc.routes.getD [] = []) :
    (∃ msg, (getRouteFilters mcp src).1 = .error msg) ∧
    ∀ r, (getRouteFilters mcp src).1 ≠ .ok r := by
  have hload : (loadRouteConfig mcp src).1 = [] := by
    simp [loadRouteConfig, hpath, hsrc, hname, hcfgs, hfound, hempty]
  have hsafe : (getSafeEndpoints mcp src).1 = .error
      ("Failed to load configuration '" ++ mcp.route_config_name ++
        "' from " ++ mcp.route_config_path) := by
    simp [getSafeEndpoints, hpath, hname, hload]
  refine ⟨⟨_, getRouteFilters_error mcp src _ hsafe⟩, ?_⟩
  intro r hr
  rw [getRouteFilters_error mcp src _ hsafe] at hr
  cases hr

/-- Witness for C10: a catalog entry with an explicitly empty routes list
fails construction. -/
theorem empty_allowlist_construction_fails_witness :
    (∃ msg, (getRouteFilters ⟨"cfg.yaml", "empty-cfg"⟩
      (.ok ⟨some [("empty-cfg", ⟨some []⟩)], none⟩)).1 = .error msg) ∧
    ∀ r, (getRouteFilters ⟨"cfg.yaml", "empty-cfg"⟩
      (.ok ⟨some [("empty-cfg", ⟨some []⟩)], none⟩)).1 ≠ .ok r :=
  empty_allowlist_construction_fails ⟨"cfg.yaml", "empty-cfg"⟩
    (.ok ⟨some [("empty-cfg", ⟨some []⟩)], none⟩) ⟨some [("empty-cfg",
      ⟨some []⟩)], none⟩ [("empty-cfg", ⟨some []⟩)] ⟨some []⟩
    (by decide) (by decide) rfl rfl (by decide) rfl

/-- C7: rule construction never partially succeeds — on every listed
failure path (unset path or name, unreadable/malformed source, missing
configurations section, absent name) the pipeline returns an error and no
rule list. -/
theorem construction_never_partial (mcp : MCPSettings) (src : SourceRead)
    (h : mcp.route_config_path = "" ∨ mcp.route_config_name = "" ∨
      src = .failed ∨ (∃ d, src = .ok d ∧ d.configurations = none) ∨
      (∃ d cfgs, src = .ok d ∧ d.configurations = some cfgs ∧
        lookupConfig cfgs mcp.route_config_name = none)) :
    (∃ msg, (getRouteFilters mcp src).1 = .error msg) ∧
    ∀ r, (getRouteFilters mcp src).1 ≠ .ok r := by
  have hsafe : ∃ e, (getSafeEndpoints mcp src).1 = .error e := by
    by_cases hp : mcp.route_config_path = ""
    · refine ⟨"Route configuration is required. Set MCP_ROUTE_CONFIG_PATH " ++
        "and MCP_ROUTE_CONFIG_NAME environment variables.", ?_⟩
      simp [getSafeEndpoints, hp]
    by_cases hn : mcp.route_config_name = ""
    · refine ⟨"Route configuration is required. Set MCP_ROUTE_CONFIG_PATH " ++
        "and MCP_ROUTE_CONFIG_NAME environment variables.", ?_⟩
      simp [getSafeEndpoints, hn]
    have hfail : (loadRouteConfig mcp src).1 = [] →
        ∃ e, (getSafeEndpoints mcp src).1 = .error e := by
      intro hload
      refine ⟨"Failed to load configuration '" ++ mcp.route_config_name ++
        "' from " ++ mcp.route_config_path, ?_⟩
      simp [getSafeEndpoints, hp, hn, hload]
    rcases h with h | h | h | ⟨d, hsrc, hc⟩ | ⟨d, cfgs, hsrc, hc, hl⟩
    · exact absurd h hp
    · exact absurd h hn
    · exact hfail (by simp [loadRouteConfig, hp, h])
    · exact hfail (by simp [loadRouteConfig, hp, hn, hsrc, hc])
    · exact hfail (by simp [loadRouteConfig, hp, hn, hsrc, hc, hl])
  obtain ⟨e, he⟩ := hsafe
  refine ⟨⟨e, getRouteFilters_error mcp src e he⟩, ?_⟩
  intro r hr
  rw [getRouteFilters_error mcp src e he] at hr
  cases hr

/-- Witness for C7: an unreadable configuration source yields an error and
no rule list. -/
theorem construction_never_partial_witness :
    (∃ msg, (getRouteFilters ⟨"cfg.yaml", "read-only-plus"⟩ .failed).1 =
      .error msg) ∧
    ∀ r, (getRouteFilters ⟨"cfg.yaml", "read-only-plus"⟩ .failed).1 ≠
      .ok r :=
  construction_never_partial ⟨"cfg.yaml", "read-only-plus"⟩ .failed
    (Or.inr (Or.inr (Or.inl rfl)))

/-- Settings with no configuration name, for the legacy-shape example. -/
def legacyMcp : MCPSettings := ⟨"cfg.yaml", ""⟩

/-- A legacy flat-shape source `{ routes: [...] }` with no catalog. -/
def legacySrc : SourceRead := .ok ⟨none, some ["^/rest/api/3/search$"]⟩

/-- C8 counterexample: with no name supplied, the config loader does
return the legacy flat shape's routes, but rule construction rejects the
configuration (a name is required), so the routes are never used as an
allow-list. -/
theorem legacy_flat_shape_counterexample :
    (loadRouteConfig legacyMcp legacySrc).1 = ["^/rest/api/3/search$"] ∧
    (getRouteFilters legacyMcp legacySrc).1 = .error
      ("Route configuration is required. Set MCP_ROUTE_CONFIG_PATH " ++
        "and MCP_ROUTE_CONFIG_NAME environment variables.") :=
  ⟨rfl, rfl⟩

/-- C8 amended: when no configuration name is supplied, `_load_route_config`
accepts the legacy flat shape and returns its routes list, but
`_get_safe_endpoints` requires both a path and a name, so rule construction
fails with an error and the legacy routes are never used as the allow-list.
-/
theorem legacy_flat_shape_loader_only (mcp : MCPSettings) (src : SourceRead)
    (d : ConfigData) (routes : List String)
    (hname : mcp.route_config_name = "")
    (hpath : mcp.route_config_path ≠ "")
    (hsrc : src = .ok d) (hroutes : d.routes = some routes) :
    (loadRouteConfig mcp src).1 = routes ∧
    ∃ msg, (getRouteFilters mcp src).1 = .error msg := by
  constructor
  · simp [loadRouteConfig, hpath, hsrc, hname, hroutes]
  · have hsafe : (getSafeEndpoints mcp src).1 = .error
        ("Route configuration is required. Set MCP_ROUTE_CONFIG_PATH " ++
          "and MCP_ROUTE_CONFIG_NAME environment variables.") := by
      simp [getSafeEndpoints, hname]
    exact ⟨_, getRouteFilters_error mcp src _ hsafe⟩

/-- Witness for the amended C8. -/
theorem legacy_flat_shape_loader_only_witness :
    (loadRouteConfig legacyMcp legacySrc).1 = ["^/rest/api/3/search$"] ∧
    ∃ msg, (getRouteFilters legacyMcp legacySrc).1 = .error msg :=
  legacy_flat_shape_loader_only legacyMcp legacySrc
    ⟨none, some ["^/rest/api/3/search$"]⟩ ["^/rest/api/3/search$"]
    rfl (by decide) rfl rfl

/-- Settings requesting a configuration name absent from the catalog. -/
def c6Mcp : MCPSettings := ⟨"cfg.yaml", "does-not-exist"⟩

/-- A catalog containing only `read-only-plus`. -/
def c6Catalog : List (String × NamedConfig) :=
  [("read-only-plus", ⟨some ["^/rest/api/3/search$"]⟩)]

/-- Source holding `c6Catalog`. -/
def c6Src : SourceRead := .ok ⟨some c6Catalog, none⟩

/-- C6 counterexample: requesting `does-not-exist` from a catalog containing
`read-only-plus` raises an error whose message contains the requested name
but NOT the available name `read-only-plus` — the available names appear
only in an error-level log message, so the claim that the raised error's
message lists every available configuration name fails. -/
theorem missing_config_error_counterexample :
    (getRouteFilters c6Mcp c6Src).1 = .error
      "Failed to load configuration 'does-not-exist' from cfg.yaml" ∧
    containsSub "Failed to load configuration 'does-not-exist' from cfg.yaml"
      "does-not-exist" = true ∧
    containsSub "Failed to load configuration 'does-not-exist' from cfg.yaml"
      "read-only-plus" = false :=
  ⟨rfl, by decide, by decide⟩

/-- C6 amended: when the requested name is absent from the catalog,
construction fails with an error whose message contains the requested name
(and the config path), while an error-level log message is emitted that
contains both the requested name and every available configuration name. -/
theorem missing_config_error_diagnostics (mcp : MCPSettings)
    (src : SourceRead) (d : ConfigData)
    (cfgs : List (String × NamedConfig))
    (hpath : mcp.route_config_path ≠ "")
    (hname : mcp.route_config_name ≠ "")
    (hsrc : src = .ok d) (hcfgs : d.configurations = some cfgs)
    (habs : lookupConfig cfgs mcp.route_config_name = none) :
    ((getRouteFilters mcp src).1 = .error
        ("Failed to load configuration '" ++ mcp.route_config_name ++
          "' from " ++ mcp.route_config_path) ∧
      containsSub ("Failed to load configuration '" ++
          mcp.route_config_name ++ "' from " ++ mcp.route_config_path)
        mcp.route_config_name = true) ∧
    (∃ l ∈ (getRouteFilters mcp src).2, l.level = .error ∧
      containsSub l.msg mcp.route_config_name = true ∧
      ∀ n ∈ cfgs.map (fun p => p.1), containsSub l.msg n = true) := by
  have hload : loadRouteConfig mcp src = ([], [⟨.error, "Configuration '" ++
      mcp.route_config_name ++ "' not found. Available: " ++
      pyListRepr (cfgs.map (fun p => p.1))⟩]) := by
    simp [loadRouteConfig, hpath, hsrc, hname, hcfgs, habs]
  have hsafe : getSafeEndpoints mcp src = (.error
      ("Failed to load configuration '" ++ mcp.route_config_name ++
        "' from " ++ mcp.route_config_path), [⟨.error, "Configuration '" ++
      mcp.route_config_name ++ "' not found. Available: " ++
      pyListRepr (cfgs.map (fun p => p.1))⟩]) := by
    simp [getSafeEndpoints, hpath, hname, hload]
  have hs1 : (getSafeEndpoints mcp src).1 = .error
      ("Failed to load configuration '" ++ mcp.route_config_name ++
        "' from " ++ mcp.route_config_path) := by rw [hsafe]
  have hgr2 : (getRouteFilters mcp src).2 = [⟨.error, "Configuration '" ++
      mcp.route_config_name ++ "' not found. Available: " ++
      pyListRepr (cfgs.map (fun p => p.1))⟩] := by
    unfold getRouteFilters
    rw [hs1, hsafe]
  refine ⟨⟨getRouteFilters_error mcp src _ hs1, ?_⟩, ?_⟩
  · apply containsSub_of_data _ _ ("Failed to load configuration '".data)
      ("' from ".data ++ mcp.route_config_path.data)
    simp [data_append, List.append_assoc]
  · rw [hgr2]
    refine ⟨⟨.error, "Configuration '" ++ mcp.route_config_name ++
      "' not found. Available: " ++
      pyListRepr (cfgs.map (fun p => p.1))⟩, by simp, rfl, ?_, ?_⟩
    · apply containsSub_of_data _ _ ("Configuration '".data)
        ("' not found. Available: ".data ++
          (pyListRepr (cfgs.map (fun p => p.1))).data)
      simp [data_append, List.append_assoc]
    · intro n hn
      obtain ⟨a, b, hab⟩ := pyQuoted_split (cfgs.map (fun p => p.1)) n hn
      apply containsSub_of_data _ _
        ("Configuration '".data ++ mcp.route_config_name.data ++
          ("' not found. Available: ".data ++ ("[".data ++ a.data)))
        (b.data ++ "]".data)
      simp [pyListRepr, hab, data_append, List.append_assoc]

/-- Witness for the amended C6, at the concrete missing-name request. -/
theorem missing_config_error_diagnostics_witness :
    ((getRouteFilters c6Mcp c6Src).1 = .error
        ("Failed to load configuration '" ++ "does-not-exist" ++
          "' from " ++ "cfg.yaml") ∧
      containsSub ("Failed to load configuration '" ++ "does-not-exist" ++
        "' from " ++ "cfg.yaml") "does-not-exist" = true) ∧
    (∃ l ∈ (getRouteFilters c6Mcp c6Src).2, l.level = .error ∧
      containsSub l.msg "does-not-exist" = true ∧
      ∀ n ∈ c6Catalog.map (fun p => p.1), containsSub l.msg n = true) :=
  missing_config_error_diagnostics c6Mcp c6Src ⟨some c6Catalog, none⟩
    c6Catalog (by decide) (by decide) rfl rfl rfl
